import Mathlib

/-
Verification of the AI-framework-recommender application (src/app.py).

The program is a thin client over a remote text-completion service.  The
model below embeds, over lists of characters, the pure parts of the code:
the brace-extraction routine shared by the validator and the generator,
a JSON parser standing for json.loads, the fallback records, the
credential resolver init_gemini_api, the recommendation-prompt builder,
and the control flow of main for one submission.  The two calls to
model.generate_content are abstracted as parameters of type
Except (List Char) (List Char): a raised exception carrying a message, or
the reply text.
-/

namespace AppSpec

/-- JSON values as produced by json.loads: null, booleans, numbers
(modelled as rationals), strings, arrays, and objects (key-value lists in
source order; lookup takes the last binding, matching dict insertion
semantics for duplicate keys). -/
inductive Json where
  | null : Json
  | bool (b : Bool) : Json
  | num (q : Rat) : Json
  | str (s : List Char) : Json
  | arr (xs : List Json) : Json
  | obj (kvs : List (List Char × Json)) : Json

/-- JSON insignificant whitespace, as accepted by the Python json module. -/
def isWsChar (c : Char) : Bool := c = ' ' || c = '\t' || c = '\n' || c = '\r'

def skipWs (s : List Char) : List Char := s.dropWhile isWsChar

def isDigitChar (c : Char) : Bool := decide ('0' ≤ c) && decide (c ≤ '9')

def digitVal (c : Char) : Nat := c.toNat - '0'.toNat

def digitsToNat (ds : List Char) : Nat := ds.foldl (fun a c => a * 10 + digitVal c) 0

/-- Take a nonempty run of decimal digits from the front of the input;
fails when the input does not start with a digit. -/
def parseDigits (s : List Char) : Option (List Char × List Char) :=
  let ds := s.takeWhile isDigitChar
  if ds.isEmpty then none else some (ds, s.drop ds.length)

/-- JSON number grammar of the Python json module: optional minus, an
integer part without a leading zero, an optional fraction, an optional
exponent.  The value is kept exactly as a rational (the source works with
Python floats; no claim depends on rounding).  The non-standard NaN and
Infinity extensions of the Python module are not modelled. -/
def parseNumber (s : List Char) : Option (Rat × List Char) :=
  let signed : Bool × List Char := match s with
    | '-' :: t => (true, t)
    | _ => (false, s)
  match parseDigits signed.2 with
  | none => none
  | some (ds, s2) =>
    if ds.head? = some '0' && ds.length != 1 then none
    else
      let ip : Rat := (digitsToNat ds : Rat)
      let afterFrac : Option (Rat × List Char) := match s2 with
        | '.' :: t =>
          match parseDigits t with
          | none => none
          | some (fs, s3) => some (ip + (digitsToNat fs : Rat) / ((10 : Rat) ^ fs.length), s3)
        | _ => some (ip, s2)
      match afterFrac with
      | none => none
      | some (v, s4) =>
        match s4 with
        | 'e' :: t =>
          let es : Bool × List Char := match t with
            | '+' :: t2 => (false, t2)
            | '-' :: t2 => (true, t2)
            | _ => (false, t)
          match parseDigits es.2 with
          | none => none
          | some (xs, s5) =>
            let m : Rat := (10 : Rat) ^ digitsToNat xs
            some (if signed.1 then -(if es.1 then v / m else v * m) else (if es.1 then v / m else v * m), s5)
        | 'E' :: t =>
          let es : Bool × List Char := match t with
            | '+' :: t2 => (false, t2)
            | '-' :: t2 => (true, t2)
            | _ => (false, t)
          match parseDigits es.2 with
          | none => none
          | some (xs, s5) =>
            let m : Rat := (10 : Rat) ^ digitsToNat xs
            some (if signed.1 then -(if es.1 then v / m else v * m) else (if es.1 then v / m else v * m), s5)
        | _ => some (if signed.1 then -v else v, s4)

def hexVal (c : Char) : Option Nat :=
  if isDigitChar c then some (digitVal c)
  else if decide ('a' ≤ c) && decide (c ≤ 'f') then some (c.toNat - 'a'.toNat + 10)
  else if decide ('A' ≤ c) && decide (c ≤ 'F') then some (c.toNat - 'A'.toNat + 10)
  else none

def escChar (c : Char) : Option Char :=
  if c = '"' then some '"'
  else if c = '\\' then some '\\'
  else if c = '/' then some '/'
  else if c = 'b' then some (Char.ofNat 8)
  else if c = 'f' then some (Char.ofNat 12)
  else if c = 'n' then some '\n'
  else if c = 'r' then some '\r'
  else if c = 't' then some '\t'
  else none

/-- Body of a JSON string, after the opening quote: the decoded characters
and the input after the closing quote.  Escapes are decoded; a \u escape
becomes the character of the given code unit (surrogate-pair combination
is not modelled); unescaped control characters are rejected, as in the
strict mode of the Python json module. -/
def parseStringBody : Nat → List Char → Option (List Char × List Char)
  | 0, _ => none
  | _, [] => none
  | f + 1, c :: t =>
    if c = '"' then some ([], t)
    else if c = '\\' then
      match t with
      | [] => none
      | e :: t2 =>
        match escChar e with
        | some ec =>
          match parseStringBody f t2 with
          | some (r, rest) => some (ec :: r, rest)
          | none => none
        | none =>
          if e = 'u' then
            match t2 with
            | h1 :: h2 :: h3 :: h4 :: t3 =>
              match hexVal h1, hexVal h2, hexVal h3, hexVal h4 with
              | some a, some b, some cc, some d =>
                match parseStringBody f t3 with
                | some (r, rest) => some (Char.ofNat (((a * 16 + b) * 16 + cc) * 16 + d) :: r, rest)
                | none => none
              | _, _, _, _ => none
            | _ => none
          else none
    else if c.toNat < 32 then none
    else
      match parseStringBody f t with
      | some (r, rest) => some (c :: r, rest)
      | none => none

mutual

/-- One JSON value at the front of the input (whitespace already skipped),
returning the value and the remaining input.  Fuel bounds the nesting
recursion; json_loads supplies more fuel than any input can consume. -/
def parseValue : Nat → List Char → Option (Json × List Char)
  | 0, _ => none
  | f + 1, s =>
    match s with
    | [] => none
    | c :: t =>
      if c = '\x7b' then
        match skipWs t with
        | '\x7d' :: t2 => some (.obj [], t2)
        | t1 => match parseMembers f t1 with
          | some (kvs, rest) => some (.obj kvs, rest)
          | none => none
      else if c = '[' then
        match skipWs t with
        | ']' :: t2 => some (.arr [], t2)
        | t1 => match parseElems f t1 with
          | some (xs, rest) => some (.arr xs, rest)
          | none => none
      else if c = '"' then
        match parseStringBody (t.length + 1) t with
        | some (r, rest) => some (.str r, rest)
        | none => none
      else if c = 't' then
        match t with
        | 'r' :: 'u' :: 'e' :: r => some (.bool true, r)
        | _ => none
      else if c = 'f' then
        match t with
        | 'a' :: 'l' :: 's' :: 'e' :: r => some (.bool false, r)
        | _ => none
      else if c = 'n' then
        match t with
        | 'u' :: 'l' :: 'l' :: r => some (.null, r)
        | _ => none
      else
        match parseNumber s with
        | some (q, rest) => some (.num q, rest)
        | none => none

/-- Members of a JSON object, positioned at the first key (whitespace
already skipped); consumes through the closing brace. -/
def parseMembers : Nat → List Char → Option (List (List Char × Json) × List Char)
  | 0, _ => none
  | f + 1, s =>
    match s with
    | '"' :: t =>
      match parseStringBody (t.length + 1) t with
      | some (key, rest) =>
        match skipWs rest with
        | ':' :: r2 =>
          match parseValue f (skipWs r2) with
          | some (v, r3) =>
            match skipWs r3 with
            | ',' :: r4 =>
              match parseMembers f (skipWs r4) with
              | some (kvs, r5) => some ((key, v) :: kvs, r5)
              | none => none
            | '\x7d' :: r4 => some ([(key, v)], r4)
            | _ => none
          | none => none
        | _ => none
      | none => none
    | _ => none

/-- Elements of a JSON array, positioned at the first element (whitespace
already skipped); consumes through the closing bracket. -/
def parseElems : Nat → List Char → Option (List Json × List Char)
  | 0, _ => none
  | f + 1, s =>
    match parseValue f s with
    | some (v, r1) =>
      match skipWs r1 with
      | ',' :: r2 =>
        match parseElems f (skipWs r2) with
        | some (xs, r3) => some (v :: xs, r3)
        | none => none
      | ']' :: r2 => some ([v], r2)
      | _ => none
    | none => none

end

/-- json.loads: one JSON value surrounded by optional whitespace; anything
further is an error ("Extra data"), and an empty or unparsable input is an
error ("Expecting value").  Errors are collapsed to none: the source only
ever observes that an exception was raised, never which one. -/
def json_loads (s : List Char) : Option Json :=
  match parseValue (s.length + 1) (skipWs s) with
  | some (v, rest) => if (skipWs rest).isEmpty then some v else none
  | none => none

/-- Python str.find for a single character: index of the first occurrence,
or -1. -/
def pyFind (c : Char) (s : List Char) : Int :=
  match List.findIdx? (fun x => x == c) s with
  | some i => (i : Int)
  | none => -1

/-- Python str.rfind for a single character: index of the last occurrence,
or -1. -/
def pyRfind (c : Char) (s : List Char) : Int :=
  match List.findIdx? (fun x => x == c) s.reverse with
  | some i => ((s.length - 1 - i : Nat) : Int)
  | none => -1

/-- Python slice s[a:b] for the index values the extraction routine can
produce on its taken branch: a is a find result (nonnegative there) and
b is rfind + 1 (always nonnegative). -/
def pySlice (s : List Char) (a b : Int) : List Char := (s.take b.toNat).drop a.toNat

/-- The brace-extraction step shared verbatim by validate_agentic_ai_task
(lines 132-136) and get_gemini_recommendation (lines 201-205): start_idx
is the index of the first left brace, end_idx is the index of the last
right brace plus one, and the slice between them is returned when both
indices differ from -1; none models falling into the else branch. -/
def extractJson (s : List Char) : Option (List Char) :=
  let start_idx := pyFind '\x7b' s
  let end_idx := pyRfind '\x7d' s + 1
  if start_idx ≠ -1 ∧ end_idx ≠ -1 then some (pySlice s start_idx end_idx) else none

/-- The no-brace fallback dictionary of validate_agentic_ai_task
(line 139). -/
def validationNoBraceFallback : Json :=
  .obj [("is_valid".toList, .bool false), ("confidence".toList, .num 0),
        ("reason".toList, .str "Unable to validate input".toList)]

/-- The except-branch dictionary of validate_agentic_ai_task (line 142);
the parameter is the text of the caught exception, interpolated after the
prefix by the f-string. -/
def validationErrorFallback (e : List Char) : Json :=
  .obj [("is_valid".toList, .bool false), ("confidence".toList, .num 0),
        ("reason".toList, .str ("Validation error: ".toList ++ e))]

/-- Modelled text of the exception raised by a failed json.loads; the
source only interpolates str(e) into the reason, so its exact wording
("Expecting value: line 1 column 1 (char 0)" and the like) is kept
abstractly as a fixed stand-in. -/
def jsonDecodeErrorText : List Char := "Expecting value".toList

/-- validate_agentic_ai_task (lines 81-142), with the remote round trip
(GenerativeModel construction, generate_content, response.text)
abstracted as its outcome: an exception message or the reply text.  The
prompt only flows into the remote call, which the model treats as
arbitrary, so it is not reproduced here. -/
def validate_agentic_ai_task (remote : Except (List Char) (List Char)) : Json :=
  match remote with
  | .error e => validationErrorFallback e
  | .ok response_text =>
    match extractJson response_text with
    | some json_str =>
      match json_loads json_str with
      | some v => v
      | none => validationErrorFallback jsonDecodeErrorText
    | none => validationNoBraceFallback

/-- The three failure sources of validate_agentic_ai_task as one
predicate on the abstracted remote outcome: the remote call raised, or —
on a reply — every successful extraction fails json.loads (which also
covers the reply with no extractable span at all). -/
def validationFailure (remote : Except (List Char) (List Char)) : Prop :=
  match remote with
  | .error _ => True
  | .ok t => ∀ j, extractJson t = some j → json_loads j = none

/-- The three chunks of the create_recommendation_prompt f-string
(lines 147-184), split at its two interpolation points. -/
def recPromptPartA : String :=
  "\nYou are an expert in agentic AI frameworks. The user has already been validated as asking about building an agentic AI system. Based on the following task description and their coding experience, recommend the most suitable framework from these options: n8n, LangGraph, CrewAI, or AutoGen.\n\n" ++
  "Task Description: "

def recPromptPartB : String := "\nUser\x27s Coding Experience: "

/-- The no-code steering instruction baked into the prompt template
(source line 163). -/
def noCodeBiasInstruction : String :=
  "- If coding experience is \"No\": Strongly favor n8n for its visual, no-code approach"

def recPromptPartC : String :=
  "\n\nFramework Options:\n" ++
  "1. n8n - Visual workflow automation tool with AI capabilities. Best for: workflow automation, data integration, business processes, non-technical users.\n\n" ++
  "2. LangGraph - Library for building stateful, multi-actor applications with LLMs. Best for: complex reasoning tasks, multi-step workflows, state management, research applications.\n\n" ++
  "3. CrewAI - Framework for orchestrating role-playing, autonomous AI agents. Best for: team collaboration simulation, multi-agent systems, role-specific tasks, creative projects.\n\n" ++
  "4. AutoGen - Microsoft\x27s framework for multi-agent conversation systems. Best for: conversational workflows, code generation, problem-solving discussions, interactive agents.\n\n" ++
  "IMPORTANT: Consider the user\x27s coding experience when making recommendations:\n" ++
  noCodeBiasInstruction ++ "\n" ++
  "- If coding experience is \"Yes\": Consider all frameworks based on the specific requirements\n\n" ++
  "Please provide your recommendation in the following JSON format:\n" ++
  "\x7b\x7b\n    \"recommended_framework\": \"framework_name\",\n    \"confidence_score\": 0.85,\n    \"reasoning\": \"Detailed explanation of why this framework is best suited for this agentic AI system, considering their coding experience\",\n    \"alternative_options\": [\"alternative1\", \"alternative2\"],\n    \"implementation_tips\": [\"tip1\", \"tip2\", \"tip3\"],\n    \"potential_challenges\": [\"challenge1\", \"challenge2\"]\n\x7d\x7d\n\n" ++
  "Consider factors specific to agentic AI systems:\n- Agent autonomy requirements\n- Multi-agent coordination needs\n- Task complexity and reasoning depth\n- Integration with external systems\n- Scalability for multiple agents\n- Development and maintenance complexity\n- User\x27s technical background and coding experience\n"

/-- create_recommendation_prompt (lines 145-185): the f-string with the
task description and the coding-experience answer interpolated.  In the
source the doubled braces of the JSON format template denote literal
brace characters only in Python; the f-string here is already a plain
string, so they are kept character for character as the source spells
them. -/
def create_recommendation_prompt (task_description coding_experience : List Char) : List Char :=
  recPromptPartA.toList ++ task_description ++ recPromptPartB.toList ++
    coding_experience ++ recPromptPartC.toList

/-- The fallback dictionary of get_gemini_recommendation
(lines 209-216), carrying the raw reply text in its reasoning field. -/
def recommendationFallback (response_text : List Char) : Json :=
  .obj [("recommended_framework".toList, .str "Unable to parse".toList),
        ("reasoning".toList, .str response_text),
        ("confidence_score".toList, .num 0),
        ("alternative_options".toList, .arr []),
        ("implementation_tips".toList, .arr []),
        ("potential_challenges".toList, .arr [])]

/-- get_gemini_recommendation (lines 188-220), remote call abstracted as
in the validator.  The first component is the returned value (none models
Python None); the second records whether st.error was called, which
happens exactly in the except branch — reached both when the remote call
raises and when json.loads raises on the extracted substring. -/
def get_gemini_recommendation (remote : Except (List Char) (List Char)) :
    Option Json × Bool :=
  match remote with
  | .error _ => (none, true)
  | .ok response_text =>
    match extractJson response_text with
    | some json_str =>
      match json_loads json_str with
      | some v => (some v, false)
      | none => (none, true)
    | none => (some (recommendationFallback response_text), false)

/-- Outcome of reading st.secrets of the key: the stored string, or one of
the two exception types the source catches (line 56). -/
inductive SecretsResult where
  | found (s : String) : SecretsResult
  | keyError : SecretsResult
  | fileNotFound : SecretsResult

/-- Observable outcome of init_gemini_api: its return value, the key
passed to genai.configure when one was, whether the Streamlit secret
store was consulted, and whether the missing-key error was displayed. -/
structure InitResult where
  ok : Bool
  key : Option String
  consultedSecrets : Bool
  errorShown : Bool

/-- Python truthiness of the api_key variable: None and the empty string
are falsy. -/
def pyTruthyStr : Option String → Bool
  | none => false
  | some s => !s.isEmpty

/-- init_gemini_api (lines 44-78): read the environment variable; when
that is falsy, read st.secrets swallowing KeyError and FileNotFoundError;
when the result is still falsy, show the error and return False,
otherwise configure the key and return True.  genai.configure merely
stores the key and is modelled as not raising, so the outer except branch
(lines 76-78) is unreachable here. -/
def init_gemini_api (env : Option String) (secrets : SecretsResult) : InitResult :=
  let api_key0 := env
  if pyTruthyStr api_key0 then
    { ok := true, key := api_key0, consultedSecrets := false, errorShown := false }
  else
    let api_key := match secrets with
      | .found s => some s
      | .keyError => api_key0
      | .fileNotFound => api_key0
    if pyTruthyStr api_key then
      { ok := true, key := api_key, consultedSecrets := true, errorShown := false }
    else
      { ok := false, key := none, consultedSecrets := true, errorShown := true }

/-- The two remote completion calls main can issue. -/
inductive RemoteCall where
  | validate : RemoteCall
  | recommend : RemoteCall
deriving DecidableEq

/-- Lookup in a parsed dict, last binding winning as with repeated keys in
Python dict construction. -/
def dictGet (kvs : List (List Char × Json)) (k : List Char) : Option Json :=
  match kvs with
  | [] => none
  | (k0, v0) :: rest =>
    match dictGet rest k with
    | some v => some v
    | none => if k0 = k then some v0 else none

/-- Python subscript or .get on a json.loads result: none models a
KeyError (or .get returning None).  Every value the source subscripts is
an object — extraction starts at a left brace, and the fallbacks are
dicts — so the non-object arm is never reached. -/
def jsonField (j : Json) (k : List Char) : Option Json :=
  match j with
  | .obj kvs => dictGet kvs k
  | _ => none

/-- Python truthiness of a json.loads value: None, False, zero, and empty
containers are falsy. -/
def jsonTruthy : Json → Bool
  | .null => false
  | .bool b => b
  | .num q => !(decide (q = 0))
  | .str s => !s.isEmpty
  | .arr xs => !xs.isEmpty
  | .obj kvs => !kvs.isEmpty

/-- Whether the format specifier ".0%" of the confidence metric
(line 334) accepts the value: numbers do, and Python bools are ints; any
other type raises. -/
def formatPercentOk : Json → Bool
  | .num _ => true
  | .bool _ => true
  | _ => false

/-- Whether a for-loop over the value succeeds: arrays, strings and dicts
iterate; None, bools and numbers raise TypeError. -/
def pyIterable : Json → Bool
  | .arr _ => true
  | .str _ => true
  | .obj _ => true
  | _ => false

/-- Whether the value may be used in a dict-membership test (line 361):
lists and dicts are unhashable and raise TypeError. -/
def pyHashable : Json → Bool
  | .arr _ => false
  | .obj _ => false
  | _ => true

/-- One optional list section of the recommendation display (lines
341-356): recommendation.get(k) — absence gives None, falsy values skip
the section, and a truthy non-iterable raises in the for loop. -/
def checkIterSection (r : Json) (k : List Char) : Except (List Char) Unit :=
  match jsonField r k with
  | none => .ok ()
  | some v =>
    if jsonTruthy v then
      if pyIterable v then .ok () else .error ("TypeError: not iterable".toList)
    else .ok ()

/-- The display of a truthy recommendation (lines 324-367), modelled as
the sequence of operations on the untrusted dict that can raise: the
recommended_framework subscript, the ".0%" formatting of the
confidence_score default-0 get, the reasoning subscript, the three
optional list sections, and the membership test in FRAMEWORK_INFO. -/
def displayRecommendation (r : Json) : Except (List Char) Unit :=
  match jsonField r "recommended_framework".toList with
  | none => .error ("KeyError: recommended_framework".toList)
  | some fw =>
    let conf := (jsonField r "confidence_score".toList).getD (.num 0)
    if !formatPercentOk conf then .error ("ValueError: bad format operand".toList)
    else
      match jsonField r "reasoning".toList with
      | none => .error ("KeyError: reasoning".toList)
      | some _ =>
        match checkIterSection r "alternative_options".toList with
        | .error e => .error e
        | .ok _ =>
          match checkIterSection r "implementation_tips".toList with
          | .error e => .error e
          | .ok _ =>
            match checkIterSection r "potential_challenges".toList with
            | .error e => .error e
            | .ok _ =>
              if pyHashable fw then .ok ()
              else .error ("TypeError: unhashable type".toList)

/-- The invalid-request branch (lines 368-402): the one dict operation
that can raise is the reason subscript in the warning. -/
def displayValidationFailure (v : Json) : Except (List Char) Unit :=
  match jsonField v "reason".toList with
  | none => .error ("KeyError: reason".toList)
  | some _ => .ok ()

/-- Python str.strip with no argument: whitespace removed from both
ends. -/
def pyStrip (s : List Char) : List Char :=
  ((s.dropWhile Char.isWhitespace).reverse.dropWhile Char.isWhitespace).reverse

/-- Observable outcome of one submission in main: which remote calls were
issued, in order, and whether the interaction finished normally or with
an unhandled exception. -/
structure MainOutcome where
  calls : List RemoteCall
  result : Except (List Char) Unit

/-- main (lines 273-405) for a single submission with the button clicked:
halt via st.stop when init_gemini_api returns False; warn and stop when
the stripped task is empty; otherwise validate, gate on the truthiness of
the is_valid subscript, and on the truthy side call the generator and
display a truthy recommendation.  The remote outcomes stand for the two
generate_content round trips, as in the component models. -/
def mainRun (env : Option String) (secrets : SecretsResult) (task : List Char)
    (vremote gremote : Except (List Char) (List Char)) : MainOutcome :=
  if !(init_gemini_api env secrets).ok then
    { calls := [], result := .ok () }
  else if (pyStrip task).isEmpty then
    { calls := [], result := .ok () }
  else
    match jsonField (validate_agentic_ai_task vremote) ("is_valid".toList) with
    | none => { calls := [.validate], result := .error ("KeyError: is_valid".toList) }
    | some jv =>
      if jsonTruthy jv then
        match (get_gemini_recommendation gremote).1 with
        | some recommendation =>
          if jsonTruthy recommendation then
            { calls := [.validate, .recommend], result := displayRecommendation recommendation }
          else
            { calls := [.validate, .recommend], result := .ok () }
        | none => { calls := [.validate, .recommend], result := .ok () }
      else
        { calls := [.validate],
          result := displayValidationFailure (validate_agentic_ai_task vremote) }

/-! Lemmas about the find, rfind and slice primitives. -/

theorem findIdx?_eq_none_of_not_mem {c : Char} {s : List Char} (h : c ∉ s) :
    List.findIdx? (fun x => x == c) s = none := by
  rw [List.findIdx?_eq_none_iff]
  intro x hx
  simp only [beq_eq_false_iff_ne]
  rintro rfl
  exact h hx

theorem mem_of_findIdx?_eq_some {c : Char} {s : List Char} {i : Nat}
    (h : List.findIdx? (fun x => x == c) s = some i) : c ∈ s := by
  by_contra hmem
  rw [findIdx?_eq_none_of_not_mem hmem] at h
  exact Option.noConfusion h

theorem pyFind_eq_neg_one_iff (c : Char) (s : List Char) : pyFind c s = -1 ↔ c ∉ s := by
  unfold pyFind
  rcases hf : List.findIdx? (fun x => x == c) s with _ | i
  · simp only [true_iff]
    rw [List.findIdx?_eq_none_iff] at hf
    intro hmem
    have := hf c hmem
    simp at this
  · simp only
    constructor
    · intro h; omega
    · intro hmem
      exact absurd (mem_of_findIdx?_eq_some hf) hmem

theorem pyRfind_eq_neg_one_iff (c : Char) (s : List Char) : pyRfind c s = -1 ↔ c ∉ s := by
  unfold pyRfind
  rcases hf : List.findIdx? (fun x => x == c) s.reverse with _ | i
  · simp only [true_iff]
    rw [List.findIdx?_eq_none_iff] at hf
    intro hmem
    have := hf c (List.mem_reverse.mpr hmem)
    simp at this
  · simp only
    constructor
    · intro h; omega
    · intro hmem
      exact absurd (List.mem_reverse.mp (mem_of_findIdx?_eq_some hf)) hmem

theorem pyRfind_add_one_ne_neg_one (c : Char) (s : List Char) : pyRfind c s + 1 ≠ -1 := by
  unfold pyRfind
  rcases List.findIdx? (fun x => x == c) s.reverse with _ | i
  · simp
  · simp only
    omega

theorem extractJson_eq_none_iff (s : List Char) : extractJson s = none ↔ '\x7b' ∉ s := by
  rw [← pyFind_eq_neg_one_iff]
  unfold extractJson
  have hend := pyRfind_add_one_ne_neg_one '\x7d' s
  by_cases hs : pyFind '\x7b' s = -1
  · simp [hs]
  · simp [hs, hend]

theorem extractJson_open_no_close {s : List Char} (hin : '\x7b' ∈ s)
    (hout : '\x7d' ∉ s) : extractJson s = some [] := by
  have hs : pyFind '\x7b' s ≠ -1 := fun h => hout.elim (absurd ((pyFind_eq_neg_one_iff _ _).mp h) (by simp [hin]))
  have hr : pyRfind '\x7d' s = -1 := (pyRfind_eq_neg_one_iff _ _).mpr hout
  unfold extractJson
  rw [hr]
  simp only [neg_add_cancel]
  rw [if_pos ⟨hs, by omega⟩]
  unfold pySlice
  simp

theorem pyFind_wrapped (p J q : List Char) (hp : '\x7b' ∉ p)
    (hh : J.head? = some '\x7b') : pyFind '\x7b' (p ++ J ++ q) = (p.length : Int) := by
  rcases J with _ | ⟨c, J'⟩
  · exact absurd hh (by simp)
  · have hc : c = '\x7b' := by simpa using hh
    subst hc
    unfold pyFind
    rw [List.append_assoc, List.findIdx?_append, findIdx?_eq_none_of_not_mem hp]
    rw [List.cons_append, List.findIdx?_cons]
    simp

theorem pyRfind_wrapped (p J q : List Char) (hq : '\x7d' ∉ q)
    (hl : J.getLast? = some '\x7d') :
    pyRfind '\x7d' (p ++ J ++ q) = ((p.length + J.length - 1 : Nat) : Int) := by
  have hJ : J ≠ [] := by rintro rfl; simp at hl
  have hrev : J.reverse.head? = some '\x7d' := by rw [List.head?_reverse]; exact hl
  rcases hr : J.reverse with _ | ⟨c, R'⟩
  · rw [hr] at hrev; simp at hrev
  · have hc : c = '\x7d' := by rw [hr] at hrev; simpa using hrev
    subst hc
    unfold pyRfind
    rw [List.reverse_append, List.reverse_append, List.append_assoc,
      List.findIdx?_append, findIdx?_eq_none_of_not_mem (fun h => hq (List.mem_reverse.mp h)),
      hr, List.cons_append, List.findIdx?_cons]
    have hlen : J.length = R'.length + 1 := by
      have := congrArg List.length hr
      simpa using this
    simp
    omega

theorem extractJson_wrapped (p J q : List Char) (hp : '\x7b' ∉ p) (hq : '\x7d' ∉ q)
    (hh : J.head? = some '\x7b') (hl : J.getLast? = some '\x7d') :
    extractJson (p ++ J ++ q) = some J := by
  have hJ : J ≠ [] := by rintro rfl; simp at hl
  have hJlen : 1 ≤ J.length := List.length_pos.mpr hJ
  unfold extractJson
  rw [pyFind_wrapped p J q hp hh, pyRfind_wrapped p J q hq hl]
  rw [if_pos ⟨by omega, by omega⟩]
  unfold pySlice
  have hb : (((p.length + J.length - 1 : Nat) : Int) + 1).toNat = p.length + J.length := by omega
  have ha : ((p.length : Nat) : Int).toNat = p.length := by omega
  rw [hb, ha]
  have htake : (p ++ J ++ q).take (p.length + J.length) = p ++ J := by
    rw [← List.length_append p J]
    exact List.take_left (p ++ J) q
  rw [htake]
  have hdrop : (p ++ J).drop p.length = J := List.drop_left p J
  rw [hdrop]

/-! The claims. -/

/-- C10: end_idx is rfind plus one and so never equals -1, making the
guard equivalent to start_idx differing from -1: the no-braces fallback
branch is taken exactly when the reply contains no left brace.  With a
left brace but no right brace the extracted slice is empty, json.loads
fails on it, and the exception handlers answer — the validator with its
error fallback, the generator with an error message and None — rather
than the no-braces branch. -/
theorem end_idx_guard_analysis (s : List Char) :
    pyRfind '\x7d' s + 1 ≠ -1 ∧
    (extractJson s = none ↔ '\x7b' ∉ s) ∧
    ('\x7b' ∈ s → '\x7d' ∉ s →
      extractJson s = some [] ∧ json_loads [] = none ∧
      validate_agentic_ai_task (.ok s) = validationErrorFallback jsonDecodeErrorText ∧
      get_gemini_recommendation (.ok s) = (none, true)) := by
  refine ⟨pyRfind_add_one_ne_neg_one _ _, extractJson_eq_none_iff s, ?_⟩
  intro hin hout
  have he := extractJson_open_no_close hin hout
  refine ⟨he, rfl, ?_, ?_⟩
  · simp only [validate_agentic_ai_task]
    rw [he]
    rfl
  · simp only [get_gemini_recommendation]
    rw [he]
    rfl

theorem end_idx_guard_analysis_witness :
    '\x7b' ∈ ("ab\x7bcd".toList) ∧ '\x7d' ∉ ("ab\x7bcd".toList) ∧
    (extractJson ("ab\x7bcd".toList) = some [] ∧ json_loads [] = none ∧
      validate_agentic_ai_task (.ok ("ab\x7bcd".toList)) =
        validationErrorFallback jsonDecodeErrorText ∧
      get_gemini_recommendation (.ok ("ab\x7bcd".toList)) = (none, true)) :=
  ⟨by decide, by decide, (end_idx_guard_analysis _).2.2 (by decide) (by decide)⟩

/-- C2: a reply containing neither brace takes the no-braces branch in
both routines without raising: the validator returns its documented
invalid record and the generator returns its Unable-to-parse record
carrying the raw reply in the reasoning field, with no error surfaced. -/
theorem no_brace_fallback (t : List Char) (h1 : '\x7b' ∉ t) (_h2 : '\x7d' ∉ t) :
    validate_agentic_ai_task (.ok t) = validationNoBraceFallback ∧
    get_gemini_recommendation (.ok t) = (some (recommendationFallback t), false) := by
  have he : extractJson t = none := (extractJson_eq_none_iff t).mpr h1
  constructor
  · simp only [validate_agentic_ai_task]
    rw [he]
  · simp only [get_gemini_recommendation]
    rw [he]

theorem no_brace_fallback_witness :
    '\x7b' ∉ ("no json here".toList) ∧ '\x7d' ∉ ("no json here".toList) ∧
    (validate_agentic_ai_task (.ok ("no json here".toList)) = validationNoBraceFallback ∧
      get_gemini_recommendation (.ok ("no json here".toList)) =
        (some (recommendationFallback ("no json here".toList)), false)) :=
  ⟨by decide, by decide, no_brace_fallback _ (by decide) (by decide)⟩

/-- C3: whenever the remote call raises, or no braces are found, or
json.loads fails on the extracted substring, validate_agentic_ai_task
returns — instead of raising — a record whose is_valid is false, whose
confidence is 0.0, and whose reason is a nonempty explanatory string. -/
theorem validate_failure_defaults (remote : Except (List Char) (List Char))
    (h : validationFailure remote) :
    jsonField (validate_agentic_ai_task remote) ("is_valid".toList) = some (.bool false) ∧
    jsonField (validate_agentic_ai_task remote) ("confidence".toList) = some (.num 0) ∧
    ∃ r, jsonField (validate_agentic_ai_task remote) ("reason".toList) = some (.str r) ∧
      r ≠ [] := by
  rcases remote with e | t
  · exact ⟨rfl, rfl, ("Validation error: ".toList) ++ e, rfl, by simp⟩
  · rcases he : extractJson t with _ | j
    · have hv : validate_agentic_ai_task (.ok t) = validationNoBraceFallback := by
        simp [validate_agentic_ai_task, he]
      rw [hv]
      exact ⟨rfl, rfl, _, rfl, by decide⟩
    · have hload := h j he
      have hv : validate_agentic_ai_task (.ok t) =
          validationErrorFallback jsonDecodeErrorText := by
        simp [validate_agentic_ai_task, he, hload]
      rw [hv]
      exact ⟨rfl, rfl, _, rfl, by decide⟩

theorem validate_failure_defaults_witness :
    validationFailure (.ok ("oops".toList)) ∧
    (jsonField (validate_agentic_ai_task (.ok ("oops".toList))) ("is_valid".toList) =
        some (.bool false) ∧
      jsonField (validate_agentic_ai_task (.ok ("oops".toList))) ("confidence".toList) =
        some (.num 0) ∧
      ∃ r, jsonField (validate_agentic_ai_task (.ok ("oops".toList))) ("reason".toList) =
        some (.str r) ∧ r ≠ []) := by
  have hfail : validationFailure (.ok ("oops".toList)) := by
    intro j hj
    rw [show extractJson ("oops".toList) = none from rfl] at hj
    exact Option.noConfusion hj
  exact ⟨hfail, validate_failure_defaults _ hfail⟩

/-- C1 counterexample: a reply made of a syntactically valid JSON object
followed by a stray closing brace.  The valid object is a substring of
the reply, yet the routine hands json.loads the span from the first
opening brace to the LAST closing brace, which fails to parse, so the
routine returns no object at all: extraction is not correct for
arbitrary surrounding prose. -/
theorem extraction_not_universal_cex :
    (json_loads ("\x7b\"a\": true\x7d".toList)).isSome = true ∧
    (∃ pre suf, ("\x7b\"a\": true\x7d \x7d".toList) =
      pre ++ ("\x7b\"a\": true\x7d".toList) ++ suf) ∧
    (extractJson ("\x7b\"a\": true\x7d \x7d".toList)).bind json_loads = none :=
  ⟨rfl, ⟨[], (" \x7d".toList), by decide⟩, rfl⟩

/-- C1 amended: when the reply is prose, then a syntactically valid JSON
object in canonical form (from its opening to its closing brace), then
prose, and the leading prose contains no opening brace while the
trailing prose contains no closing brace, the brace-extraction routine
recovers exactly that object.  (Fully arbitrary prose is refuted by
extraction_not_universal_cex: a stray brace in the prose shifts the
extracted span.) -/
theorem extract_parse_of_wrapped_json (p J q : List Char) (v : Json)
    (hp : '\x7b' ∉ p) (hq : '\x7d' ∉ q)
    (hh : J.head? = some '\x7b') (hl : J.getLast? = some '\x7d')
    (hv : json_loads J = some v) :
    (extractJson (p ++ J ++ q)).bind json_loads = some v := by
  rw [extractJson_wrapped p J q hp hq hh hl]
  exact hv

theorem extract_parse_of_wrapped_json_witness :
    '\x7b' ∉ ("Here it is: ".toList) ∧ '\x7d' ∉ (" hope that helps".toList) ∧
    ("\x7b\"a\": true\x7d".toList).head? = some '\x7b' ∧
    ("\x7b\"a\": true\x7d".toList).getLast? = some '\x7d' ∧
    json_loads ("\x7b\"a\": true\x7d".toList) =
      some (.obj [(("a".toList), .bool true)]) ∧
    (extractJson (("Here it is: ".toList) ++ ("\x7b\"a\": true\x7d".toList) ++
        (" hope that helps".toList))).bind json_loads =
      some (.obj [(("a".toList), .bool true)]) :=
  ⟨by decide, by decide, rfl, rfl, rfl,
    extract_parse_of_wrapped_json _ _ _ _ (by decide) (by decide) rfl rfl rfl⟩

/-- C4 counterexample: on the reply consisting of braces around junk,
extraction succeeds and json.loads fails on the extracted substring —
a JSON-parse failure of the reply — yet the generator returns None with
an error surfaced, not the Unable-to-parse fallback record the claim
promises for any parse failure. -/
theorem gemini_parse_failure_cex :
    (extractJson ("\x7bx\x7d".toList)).isSome = true ∧
    (extractJson ("\x7bx\x7d".toList)).bind json_loads = none ∧
    get_gemini_recommendation (.ok ("\x7bx\x7d".toList)) = (none, true) ∧
    (get_gemini_recommendation (.ok ("\x7bx\x7d".toList))).1 ≠
      some (recommendationFallback ("\x7bx\x7d".toList)) :=
  ⟨rfl, rfl, rfl, fun h => Option.noConfusion h⟩

/-- C4 amended: the generator's Unable-to-parse fallback (raw reply in
the reasoning field) is returned exactly on the no-braces branch — when
no opening brace is found; when the extracted substring fails JSON
parsing, and likewise when the remote call raises, the except branch
surfaces an error message to the user and returns None instead. -/
theorem gemini_failure_modes (t j e : List Char) :
    (extractJson t = none →
      get_gemini_recommendation (.ok t) = (some (recommendationFallback t), false)) ∧
    (extractJson t = some j → json_loads j = none →
      get_gemini_recommendation (.ok t) = (none, true)) ∧
    get_gemini_recommendation (.error e) = (none, true) := by
  refine ⟨?_, ?_, rfl⟩
  · intro he
    simp [get_gemini_recommendation, he]
  · intro he hl
    simp [get_gemini_recommendation, he, hl]

theorem gemini_failure_modes_witness :
    (extractJson ("plain text".toList) = none ∧
      get_gemini_recommendation (.ok ("plain text".toList)) =
        (some (recommendationFallback ("plain text".toList)), false)) ∧
    (extractJson ("\x7bx\x7d".toList) = some ("\x7bx\x7d".toList) ∧
      json_loads ("\x7bx\x7d".toList) = none ∧
      get_gemini_recommendation (.ok ("\x7bx\x7d".toList)) = (none, true)) :=
  ⟨⟨rfl, (gemini_failure_modes ("plain text".toList) [] []).1 rfl⟩,
    ⟨rfl, rfl, (gemini_failure_modes ("\x7bx\x7d".toList) ("\x7bx\x7d".toList) []).2.1 rfl rfl⟩⟩

/-- C5: the credential policy of init_gemini_api: a truthy environment
value wins and the secret store is not consulted; a falsy environment
value (absent or empty) consults the store, where a truthy secret
succeeds; when both are absent or empty the error is shown and False is
returned — the fatal outcome for the session. -/
theorem init_credential_policy (env : Option String) (secrets : SecretsResult) :
    (∀ s, env = some s → s ≠ "" →
      init_gemini_api env secrets =
        { ok := true, key := some s, consultedSecrets := false, errorShown := false }) ∧
    (pyTruthyStr env = false →
      (init_gemini_api env secrets).consultedSecrets = true ∧
      (∀ s, secrets = .found s → s ≠ "" →
        init_gemini_api env secrets =
          { ok := true, key := some s, consultedSecrets := true, errorShown := false }) ∧
      ((secrets = .keyError ∨ secrets = .fileNotFound ∨ secrets = .found "") →
        init_gemini_api env secrets =
          { ok := false, key := none, consultedSecrets := true, errorShown := true })) := by
  constructor
  · rintro s rfl hs
    have hie : s.isEmpty = false := by
      rcases hE : s.isEmpty with _ | _
      · rfl
      · exact absurd ((String.isEmpty_iff s).mp hE) hs
    have ht : pyTruthyStr (some s) = true := by simp [pyTruthyStr, hie]
    simp [init_gemini_api, ht]
  · intro hf
    refine ⟨?_, ?_, ?_⟩
    · simp only [init_gemini_api, hf]
      rcases secrets with s | _ | _
      · by_cases h2 : pyTruthyStr (some s) = true <;> simp [h2]
      · simp [hf]
      · simp [hf]
    · rintro s rfl hs
      have hie : s.isEmpty = false := by
        rcases hE : s.isEmpty with _ | _
        · rfl
        · exact absurd ((String.isEmpty_iff s).mp hE) hs
      have ht : pyTruthyStr (some s) = true := by simp [pyTruthyStr, hie]
      simp [init_gemini_api, hf, ht]
    · rintro (rfl | rfl | rfl)
      · simp [init_gemini_api, hf]
      · simp [init_gemini_api, hf]
      · have h0 : pyTruthyStr (some "") = false := rfl
        simp [init_gemini_api, hf, h0]

theorem init_credential_policy_witness :
    (some "k0" = some "k0" ∧ ("k0" : String) ≠ "" ∧
      init_gemini_api (some "k0") SecretsResult.keyError =
        { ok := true, key := some "k0", consultedSecrets := false, errorShown := false }) ∧
    (pyTruthyStr none = false ∧
      init_gemini_api none SecretsResult.keyError =
        { ok := false, key := none, consultedSecrets := true, errorShown := true }) :=
  ⟨⟨rfl, by decide,
      (init_credential_policy (some "k0") SecretsResult.keyError).1 ("k0") rfl (by decide)⟩,
    ⟨rfl, ((init_credential_policy none SecretsResult.keyError).2 rfl).2.2 (Or.inl rfl)⟩⟩

/-- C6: when init_gemini_api returns False, main stops (st.stop) before
either remote call: the call trace of the session is empty, so neither
validate_agentic_ai_task nor get_gemini_recommendation is invoked. -/
theorem no_remote_calls_without_credential (env : Option String)
    (secrets : SecretsResult) (task : List Char)
    (vremote gremote : Except (List Char) (List Char))
    (h : (init_gemini_api env secrets).ok = false) :
    (mainRun env secrets task vremote gremote).calls = [] ∧
    RemoteCall.validate ∉ (mainRun env secrets task vremote gremote).calls ∧
    RemoteCall.recommend ∉ (mainRun env secrets task vremote gremote).calls := by
  have hm : mainRun env secrets task vremote gremote = { calls := [], result := .ok () } := by
    simp [mainRun, h]
  rw [hm]
  exact ⟨rfl, by simp, by simp⟩

theorem no_remote_calls_without_credential_witness :
    (init_gemini_api none SecretsResult.keyError).ok = false ∧
    (mainRun none SecretsResult.keyError ("build an ai agent".toList)
      (.ok []) (.ok [])).calls = [] :=
  ⟨rfl, (no_remote_calls_without_credential none SecretsResult.keyError
    ("build an ai agent".toList) (.ok []) (.ok []) rfl).1⟩

set_option maxRecDepth 8000 in
/-- C7: for every task description, the prompt built by
create_recommendation_prompt with coding experience No contains the
explicit instruction biasing the recommendation toward the no-code
option n8n — a string-presence property of the constructed prompt.  (The
instruction is part of the fixed template, so it is present for either
answer; the claim's case is the No answer.) -/
theorem prompt_contains_no_code_bias (task_description : List Char) :
    ∃ pre suf,
      create_recommendation_prompt task_description ("No".toList) =
        pre ++ noCodeBiasInstruction.toList ++ suf := by
  refine ⟨recPromptPartA.toList ++ task_description ++ recPromptPartB.toList ++
    ("No".toList) ++
    (("\n\nFramework Options:\n" ++
      "1. n8n - Visual workflow automation tool with AI capabilities. Best for: workflow automation, data integration, business processes, non-technical users.\n\n" ++
      "2. LangGraph - Library for building stateful, multi-actor applications with LLMs. Best for: complex reasoning tasks, multi-step workflows, state management, research applications.\n\n" ++
      "3. CrewAI - Framework for orchestrating role-playing, autonomous AI agents. Best for: team collaboration simulation, multi-agent systems, role-specific tasks, creative projects.\n\n" ++
      "4. AutoGen - Microsoft\x27s framework for multi-agent conversation systems. Best for: conversational workflows, code generation, problem-solving discussions, interactive agents.\n\n" ++
      "IMPORTANT: Consider the user\x27s coding experience when making recommendations:\n").toList),
    (("\n" ++
      "- If coding experience is \"Yes\": Consider all frameworks based on the specific requirements\n\n" ++
      "Please provide your recommendation in the following JSON format:\n" ++
      "\x7b\x7b\n    \"recommended_framework\": \"framework_name\",\n    \"confidence_score\": 0.85,\n    \"reasoning\": \"Detailed explanation of why this framework is best suited for this agentic AI system, considering their coding experience\",\n    \"alternative_options\": [\"alternative1\", \"alternative2\"],\n    \"implementation_tips\": [\"tip1\", \"tip2\", \"tip3\"],\n    \"potential_challenges\": [\"challenge1\", \"challenge2\"]\n\x7d\x7d\n\n" ++
      "Consider factors specific to agentic AI systems:\n- Agent autonomy requirements\n- Multi-agent coordination needs\n- Task complexity and reasoning depth\n- Integration with external systems\n- Scalability for multiple agents\n- Development and maintenance complexity\n- User\x27s technical background and coding experience\n").toList), ?_⟩
  simp only [create_recommendation_prompt, recPromptPartC]
  simp only [String.toList, String.data_append, List.append_assoc]

/-- C8 counterexample: main gates the generator on Python truthiness of
the is_valid subscript, not on it being the boolean true: a validator
reply whose is_valid field is the nonempty string maybe still makes main
invoke the generator, so the generator runs without validation having
returned a result whose is_valid field is true. -/
theorem sequencing_gate_cex :
    jsonField (validate_agentic_ai_task (.ok ("\x7b\"is_valid\": \"maybe\"\x7d".toList)))
        ("is_valid".toList) = some (.str ("maybe".toList)) ∧
    RemoteCall.recommend ∈ (mainRun (some "k0") SecretsResult.keyError
      ("build an ai agent".toList)
      (.ok ("\x7b\"is_valid\": \"maybe\"\x7d".toList))
      (.ok ("\x7b\"recommended_framework\": \"n8n\"\x7d".toList))).calls ∧
    some (Json.str ("maybe".toList)) ≠ some (Json.bool true) :=
  ⟨rfl, by decide, fun h => Json.noConfusion (Option.some.inj h)⟩

/-- C8 amended: the two remote calls are strictly sequential, and the
generator is gated on the truthiness of the validation result's is_valid
field: whenever the generator is invoked, the trace is exactly validator
then generator and the is_valid field was truthy (so in particular a
boolean-true field admits it), and a falsy is_valid field — the boolean
false in particular — means the generator is never invoked for that
submission. -/
theorem mainRun_calls_char (env : Option String) (secrets : SecretsResult)
    (task : List Char) (vremote gremote : Except (List Char) (List Char))
    (hok : (init_gemini_api env secrets).ok = true)
    (hstrip : (pyStrip task).isEmpty = false) :
    (mainRun env secrets task vremote gremote).calls =
      match jsonField (validate_agentic_ai_task vremote) ("is_valid".toList) with
      | none => [RemoteCall.validate]
      | some jv =>
        if jsonTruthy jv then [RemoteCall.validate, RemoteCall.recommend]
        else [RemoteCall.validate] := by
  unfold mainRun
  rw [if_neg (by rw [hok]; simp), if_neg (by rw [hstrip]; simp)]
  rcases hf : jsonField (validate_agentic_ai_task vremote) ("is_valid".toList) with _ | jv
  · rfl
  · rcases htr : jsonTruthy jv with _ | _
    · simp [htr]
    · rcases hg : (get_gemini_recommendation gremote).1 with _ | rec
      · simp [htr, hg]
      · rcases hr : jsonTruthy rec with _ | _ <;> simp [htr, hg, hr]

theorem mainRun_calls_halt (env : Option String) (secrets : SecretsResult)
    (task : List Char) (vremote gremote : Except (List Char) (List Char))
    (h : (init_gemini_api env secrets).ok = false ∨ (pyStrip task).isEmpty = true) :
    (mainRun env secrets task vremote gremote).calls = [] := by
  unfold mainRun
  rcases h with h | h
  · rw [if_pos (by rw [h]; rfl)]
  · by_cases h1 : (!(init_gemini_api env secrets).ok) = true
    · rw [if_pos h1]
    · rw [if_neg h1, if_pos h]

/-- C8 amended: the two remote calls are strictly sequential, and the
generator is gated on the truthiness of the validation result's is_valid
field: whenever the generator is invoked, the trace is exactly validator
then generator and the is_valid field was truthy (so in particular a
boolean-true field admits it), and a falsy is_valid field — the boolean
false in particular — means the generator is never invoked for that
submission. -/
theorem sequential_gated_calls (env : Option String) (secrets : SecretsResult)
    (task : List Char) (vremote gremote : Except (List Char) (List Char)) :
    (RemoteCall.recommend ∈ (mainRun env secrets task vremote gremote).calls →
      (mainRun env secrets task vremote gremote).calls =
        [RemoteCall.validate, RemoteCall.recommend] ∧
      ∃ jv, jsonField (validate_agentic_ai_task vremote) ("is_valid".toList) = some jv ∧
        jsonTruthy jv = true) ∧
    (∀ jv, jsonField (validate_agentic_ai_task vremote) ("is_valid".toList) = some jv →
      jsonTruthy jv = false →
      RemoteCall.recommend ∉ (mainRun env secrets task vremote gremote).calls) := by
  rcases hok : (init_gemini_api env secrets).ok with _ | _
  · have hm := mainRun_calls_halt env secrets task vremote gremote (Or.inl hok)
    rw [hm]
    exact ⟨fun h => absurd h (by simp), fun jv _ _ => by simp⟩
  · rcases hstrip : (pyStrip task).isEmpty with _ | _
    · rcases hjv : jsonField (validate_agentic_ai_task vremote) ("is_valid".toList) with _ | jv
      · have hm : (mainRun env secrets task vremote gremote).calls = [RemoteCall.validate] := by
          rw [mainRun_calls_char env secrets task vremote gremote hok hstrip, hjv]
        rw [hm]
        constructor
        · intro h
          rw [List.mem_singleton] at h
          exact RemoteCall.noConfusion h
        · intro jv' hjv' _
          exact Option.noConfusion hjv'
      · rcases ht : jsonTruthy jv with _ | _
        · have hm : (mainRun env secrets task vremote gremote).calls = [RemoteCall.validate] := by
            rw [mainRun_calls_char env secrets task vremote gremote hok hstrip, hjv]
            simp [ht]
          rw [hm]
          constructor
          · intro h
            rw [List.mem_singleton] at h
            exact RemoteCall.noConfusion h
          · intro jv' hjv' ht' hmem
            rw [List.mem_singleton] at hmem
            exact RemoteCall.noConfusion hmem
        · have hm : (mainRun env secrets task vremote gremote).calls =
              [RemoteCall.validate, RemoteCall.recommend] := by
            rw [mainRun_calls_char env secrets task vremote gremote hok hstrip, hjv]
            simp [ht]
          rw [hm]
          constructor
          · intro _
            exact ⟨rfl, jv, rfl, ht⟩
          · intro jv' hjv' ht'
            have hjj : jv = jv' := Option.some.inj hjv'
            rw [← hjj, ht] at ht'
            exact Bool.noConfusion ht'
    · have hm := mainRun_calls_halt env secrets task vremote gremote (Or.inr hstrip)
      rw [hm]
      exact ⟨fun h => absurd h (by simp), fun jv _ _ => by simp⟩

theorem sequential_gated_calls_witness :
    ((mainRun (some "k0") SecretsResult.keyError ("build an ai agent".toList)
        (.ok ("\x7b\"is_valid\": true\x7d".toList)) (.ok ("ok".toList))).calls =
      [RemoteCall.validate, RemoteCall.recommend] ∧
      ∃ jv, jsonField (validate_agentic_ai_task (.ok ("\x7b\"is_valid\": true\x7d".toList)))
        ("is_valid".toList) = some jv ∧ jsonTruthy jv = true) ∧
    RemoteCall.recommend ∉ (mainRun (some "k0") SecretsResult.keyError
      ("build an ai agent".toList)
      (.ok ("\x7b\"is_valid\": false\x7d".toList)) (.ok ("ok".toList))).calls :=
  ⟨(sequential_gated_calls (some "k0") SecretsResult.keyError
      ("build an ai agent".toList)
      (.ok ("\x7b\"is_valid\": true\x7d".toList)) (.ok ("ok".toList))).1 (by decide),
    (sequential_gated_calls (some "k0") SecretsResult.keyError
      ("build an ai agent".toList)
      (.ok ("\x7b\"is_valid\": false\x7d".toList)) (.ok ("ok".toList))).2
      (Json.bool false) rfl rfl⟩

/-- C9 counterexample: a syntactically well-formed validator reply whose
object lacks the is_valid key crashes the submission handler with an
unhandled KeyError — bad model output on which displaying the results
does raise, refuting the for-every-reply safety claim. -/
theorem display_crash_cex :
    (mainRun (some "k0") SecretsResult.keyError ("build an ai agent".toList)
      (.ok ("\x7b\"valid\": true\x7d".toList)) (.ok ("x".toList))).result =
      .error ("KeyError: is_valid".toList) := rfl

/-- C9 amended: degradation to the fixed fallbacks does protect the
presentation against extraction failures: a validator reply with no
opening brace renders the rejection screen without raising, and — when
validation passed — a generator reply with no opening brace renders the
Unable-to-parse fallback without raising.  Replies that parse but lack
the keys the display subscripts are not protected (display_crash_cex). -/
theorem display_safe_on_extraction_failure (env : Option String)
    (secrets : SecretsResult) (task : List Char) (vtext gtext : List Char)
    (gremote : Except (List Char) (List Char)) :
    ('\x7b' ∉ vtext → (mainRun env secrets task (.ok vtext) gremote).result = .ok ()) ∧
    (∀ jv, jsonField (validate_agentic_ai_task (.ok vtext)) ("is_valid".toList) = some jv →
      jsonTruthy jv = true → '\x7b' ∉ gtext →
      (mainRun env secrets task (.ok vtext) (.ok gtext)).result = .ok ()) := by
  constructor
  · intro hv
    have hval : validate_agentic_ai_task (.ok vtext) = validationNoBraceFallback := by
      simp [validate_agentic_ai_task, (extractJson_eq_none_iff vtext).mpr hv]
    unfold mainRun
    by_cases h1 : (!(init_gemini_api env secrets).ok) = true
    · rw [if_pos h1]
    · rw [if_neg h1]
      by_cases h2 : (pyStrip task).isEmpty = true
      · rw [if_pos h2]
      · rw [if_neg h2, hval]
        rfl
  · intro jv hjv ht hg
    have hrec : get_gemini_recommendation (.ok gtext) =
        (some (recommendationFallback gtext), false) := by
      simp [get_gemini_recommendation, (extractJson_eq_none_iff gtext).mpr hg]
    have hrec1 : (get_gemini_recommendation (.ok gtext)).1 =
        some (recommendationFallback gtext) := by rw [hrec]
    unfold mainRun
    by_cases h1 : (!(init_gemini_api env secrets).ok) = true
    · rw [if_pos h1]
    · rw [if_neg h1]
      by_cases h2 : (pyStrip task).isEmpty = true
      · rw [if_pos h2]
      · rw [if_neg h2, hjv]
        simp only [ht, if_true]
        rw [hrec1]
        rfl

theorem display_safe_on_extraction_failure_witness :
    ('\x7b' ∉ ("no braces at all".toList) ∧
      (mainRun (some "k0") SecretsResult.keyError ("build an ai agent".toList)
        (.ok ("no braces at all".toList)) (.ok ("x".toList))).result = .ok ()) ∧
    (jsonField (validate_agentic_ai_task (.ok ("\x7b\"is_valid\": true\x7d".toList)))
        ("is_valid".toList) = some (Json.bool true) ∧
      jsonTruthy (Json.bool true) = true ∧ '\x7b' ∉ ("plain text".toList) ∧
      (mainRun (some "k0") SecretsResult.keyError ("build an ai agent".toList)
        (.ok ("\x7b\"is_valid\": true\x7d".toList)) (.ok ("plain text".toList))).result =
        .ok ()) :=
  ⟨⟨by decide,
      (display_safe_on_extraction_failure (some "k0") SecretsResult.keyError
        ("build an ai agent".toList) ("no braces at all".toList) ("plain text".toList)
        (.ok ("x".toList))).1 (by decide)⟩,
    ⟨rfl, rfl, by decide,
      (display_safe_on_extraction_failure (some "k0") SecretsResult.keyError
        ("build an ai agent".toList) ("\x7b\"is_valid\": true\x7d".toList)
        ("plain text".toList) (.ok ("x".toList))).2 (Json.bool true) rfl rfl (by decide)⟩⟩

end AppSpec
